import Mathlib

/-!
# The `sleeper` stored procedure of `_TEST/sleep.c`

`sleeper` is a DB2 external function: it receives pointers to an integer
argument, to the argument's null indicator, to the result and to the result's
null indicator, followed by the trailing arguments of the UDF calling
convention. It calls `sleep` and writes a dummy result.

The embedding keeps the pointers. Storage is typed: the 32-bit integer
objects (`SQLUDF_INTEGER`), the 16-bit objects (`SQLUDF_NULLIND`,
`SQLUDF_SMALLINT`) and the character objects live in three separate maps from
addresses to values, so two pointers of the same type may alias and pointers of
different types never do. Values are mathematical integers; `int` and
`unsigned int` are 32 bits wide and the conversions between them are explicit.
The system function `sleep` is a parameter of the model: a function from the
requested number of seconds to the number of seconds left unslept. Every system
call made is appended to the `calls` component of the state.
-/

set_option linter.unusedVariables false

namespace Sleeper

/-- Address of an object in the caller's storage. -/
abbrev Addr := Nat

/-- A system call made by the procedure: `sleep (seconds)` with the value the
system function receives in its `unsigned int` parameter. -/
inductive SysCall where
  | sleep (seconds : Nat)
  deriving DecidableEq

/-- Modelled from the spec: the macro `SQLUDF_TRAIL_ARGS` of the DB2 header
`sqludf.h`, which is not among the source files. It declares the four trailing
character-buffer parameters of a UDF: SQLSTATE, function name, specific name and
message text. Each is the address of a buffer in character storage. -/
structure TrailArgs where
  sqludf_sqlstate : Addr
  sqludf_fname : Addr
  sqludf_fspecname : Addr
  sqludf_msgtext : Addr

/-- Storage visible to the procedure, and the system calls made so far. -/
structure State where
  /-- the `SQLUDF_INTEGER` objects (32-bit signed) -/
  ints : Addr → Int
  /-- the `SQLUDF_NULLIND` and `SQLUDF_SMALLINT` objects (16-bit signed) -/
  shorts : Addr → Int
  /-- the character objects, which hold the trailing argument buffers -/
  chars : Addr → Nat
  /-- the system calls made, oldest first -/
  calls : List SysCall

/-- The assignment `*p = v` through a pointer to a 32-bit integer. -/
def State.storeInt (s : State) (p : Addr) (v : Int) : State :=
  { s with ints := fun a => if a = p then v else s.ints a }

/-- The assignment `*p = v` through a pointer to a 16-bit integer. -/
def State.storeShort (s : State) (p : Addr) (v : Int) : State :=
  { s with shorts := fun a => if a = p then v else s.shorts a }

/-- Conversion of an `int` to `unsigned int`: the value modulo `2 ^ 32`. -/
def toUnsigned (x : Int) : Nat :=
  (x % 2 ^ 32).toNat

/-- Conversion of an `unsigned int` to `int`: values from `2 ^ 31` on wrap to
the negative numbers. -/
def toSigned (n : Nat) : Int :=
  if n % 2 ^ 32 < 2 ^ 31 then ((n % 2 ^ 32 : Nat) : Int) else ((n % 2 ^ 32 : Nat) : Int) - 2 ^ 32

/-- The call `sleep (seconds)`: the call is recorded and the system function's
answer, an `unsigned int`, is returned. -/
def callSleep (sleep : Nat → Nat) (seconds : Nat) (s : State) : Nat × State :=
  (sleep seconds % 2 ^ 32, { s with calls := s.calls ++ [SysCall.sleep seconds] })

/-- The local variables `int j,k;` of `sleeper`, as they stand at the closing
brace. -/
structure Locals where
  j : Int
  k : Int

/-- The body of `sleeper`, statement by statement; it yields the final storage
and the final values of the local variables. -/
def sleeperBody (sleep : Nat → Nat) (inint inintNullInd outDummy dummyNullInd : Addr)
    (trail : TrailArgs) (s : State) : State × Locals :=
  -- if (*inintNullInd == -1) { *dummyNullInd = -1; }
  let s1 := if s.shorts inintNullInd = -1 then s.storeShort dummyNullInd (-1) else s
  -- k=*inint;
  let k := s1.ints inint
  -- j=sleep(k);
  let r := callSleep sleep (toUnsigned k) s1
  let j := toSigned r.1
  let s2 := r.2
  -- *outDummy = 0;
  let s3 := s2.storeInt outDummy 0
  -- *dummyNullInd = 0;
  let s4 := s3.storeShort dummyNullInd 0
  (s4, { j := j, k := k })

/-- The procedure `sleeper`: the locals vanish at return, the storage stays. -/
def sleeper (sleep : Nat → Nat) (inint inintNullInd outDummy dummyNullInd : Addr)
    (trail : TrailArgs) (s : State) : State :=
  (sleeperBody sleep inint inintNullInd outDummy dummyNullInd trail s).1

/-! ## Concrete inputs -/

/-- A system `sleep` that is never interrupted: nothing is left unslept. -/
def fullSleep : Nat → Nat := fun _ => 0

/-- A system `sleep` that is interrupted at once: all the seconds are left. -/
def interruptedSleep : Nat → Nat := fun n => n

/-- Trailing arguments with their four buffers at addresses 0, 10, 20 and 30. -/
def trail0 : TrailArgs :=
  { sqludf_sqlstate := 0, sqludf_fname := 10, sqludf_fspecname := 20, sqludf_msgtext := 30 }

/-- A caller's storage with `*inint = n` at integer address 0, `*inintNullInd =
ind` at short address 0, the result at integer address 1 holding `out`, its null
indicator at short address 1 holding `outInd`, SQLSTATE "00000" and no call made
yet. -/
def mkState (n ind out outInd : Int) : State :=
  { ints := fun a => if a = 0 then n else out
    shorts := fun a => if a = 0 then ind else outInd
    chars := fun a => if a < 5 then 48 else 0
    calls := [] }

/-! ## General facts about the body -/

/-- The calls made: one `sleep`, on `*inint` converted to `unsigned int`. -/
theorem sleeper_calls (sleep : Nat → Nat) (inint inintNullInd outDummy dummyNullInd : Addr)
    (trail : TrailArgs) (s : State) :
    (sleeper sleep inint inintNullInd outDummy dummyNullInd trail s).calls
      = s.calls ++ [SysCall.sleep (toUnsigned (s.ints inint))] := by
  unfold sleeper sleeperBody callSleep State.storeInt State.storeShort
  by_cases h : s.shorts inintNullInd = -1 <;> simp [h]

/-- The integer storage on return: 0 at `outDummy`, unchanged elsewhere. -/
theorem sleeper_ints (sleep : Nat → Nat) (inint inintNullInd outDummy dummyNullInd : Addr)
    (trail : TrailArgs) (s : State) (a : Addr) :
    (sleeper sleep inint inintNullInd outDummy dummyNullInd trail s).ints a
      = if a = outDummy then 0 else s.ints a := by
  unfold sleeper sleeperBody callSleep State.storeInt State.storeShort
  by_cases h : s.shorts inintNullInd = -1 <;> simp [h]

/-- The 16-bit storage on return: 0 at `dummyNullInd`, unchanged elsewhere. -/
theorem sleeper_shorts (sleep : Nat → Nat) (inint inintNullInd outDummy dummyNullInd : Addr)
    (trail : TrailArgs) (s : State) (a : Addr) :
    (sleeper sleep inint inintNullInd outDummy dummyNullInd trail s).shorts a
      = if a = dummyNullInd then 0 else s.shorts a := by
  unfold sleeper sleeperBody callSleep State.storeInt State.storeShort
  by_cases h : s.shorts inintNullInd = -1 <;> by_cases ha : a = dummyNullInd <;> simp [h, ha]

/-- A non-negative `int` keeps its value as `unsigned int`. -/
theorem toUnsigned_of_nonneg (N : Int) (h0 : 0 ≤ N) (h1 : N < 2 ^ 31) :
    ((toUnsigned N : Nat) : Int) = N := by
  unfold toUnsigned
  have h : N % 2 ^ 32 = N := Int.emod_eq_of_lt h0 (by omega)
  rw [h]
  exact Int.toNat_of_nonneg h0

/-- A negative `int` becomes its value plus `2 ^ 32` as `unsigned int`. -/
theorem toUnsigned_of_neg (N : Int) (h0 : -2 ^ 31 ≤ N) (h1 : N < 0) :
    ((toUnsigned N : Nat) : Int) = N + 2 ^ 32 := by
  unfold toUnsigned
  have h : N % 2 ^ 32 = N + 2 ^ 32 := by omega
  rw [h]
  exact Int.toNat_of_nonneg (by omega)

/-- The converted value is the residue modulo `2 ^ 32`. -/
theorem toUnsigned_eq_emod (N : Int) : ((toUnsigned N : Nat) : Int) = N % 2 ^ 32 := by
  unfold toUnsigned
  exact Int.toNat_of_nonneg (Int.emod_nonneg _ (by norm_num))

/-- The locals at the closing brace: `k` is `*inint`, `j` is what `sleep` answered. -/
theorem sleeperBody_locals (sleep : Nat → Nat) (inint inintNullInd outDummy dummyNullInd : Addr)
    (trail : TrailArgs) (s : State) :
    (sleeperBody sleep inint inintNullInd outDummy dummyNullInd trail s).2.k = s.ints inint ∧
    (sleeperBody sleep inint inintNullInd outDummy dummyNullInd trail s).2.j
      = toSigned (sleep (toUnsigned (s.ints inint)) % 2 ^ 32) := by
  unfold sleeperBody callSleep State.storeInt State.storeShort
  by_cases h : s.shorts inintNullInd = -1 <;> simp [h]

/-! ## The claims -/

/-- C1, evaluated on the code at a NULL argument: the caller passes `*inint = 5`
with `*inintNullInd = -1`; the result's null indicator, 9 before the call, is 0
when `sleeper` returns and not -1, because the unconditional last assignment
overwrites the -1 stored by the null branch. -/
theorem sleeper_null_indicator_overwritten :
    (mkState 5 (-1) 7 9).shorts 0 = -1 ∧
    (sleeper fullSleep 0 0 1 1 trail0 (mkState 5 (-1) 7 9)).shorts 1 = 0 ∧
    (sleeper fullSleep 0 0 1 1 trail0 (mkState 5 (-1) 7 9)).shorts 1 ≠ -1 := by
  refine ⟨by decide, by decide, by decide⟩

/-- C2 as stated fails at `N = -1` with a non-null indicator: the one call made
is `sleep (4294967295)`, and no call with an argument equal to the integer -1 is
made. -/
theorem sleeper_negative_argument_not_N :
    (mkState (-1) 0 7 9).shorts 0 = 0 ∧
    (sleeper fullSleep 0 0 1 1 trail0 (mkState (-1) 0 7 9)).calls = [SysCall.sleep 4294967295] ∧
    ¬ ∃ n : Nat, (sleeper fullSleep 0 0 1 1 trail0 (mkState (-1) 0 7 9)).calls = [SysCall.sleep n]
        ∧ (n : Int) = (mkState (-1) 0 7 9).ints 0 := by
  refine ⟨by decide, by decide, ?_⟩
  rintro ⟨n, -, hn⟩
  have h : (mkState (-1) 0 7 9).ints 0 = -1 := by decide
  rw [h] at hn
  omega

/-- C2, amended: when the null indicator is not -1, `sleeper` makes exactly one
system call, a call of `sleep`, and its argument is `N = *inint` converted to
`unsigned int`, that is `N mod 2 ^ 32` seconds, which is `N` itself when
`0 ≤ N < 2 ^ 31`. -/
theorem sleeper_one_sleep_call (sleep : Nat → Nat)
    (inint inintNullInd outDummy dummyNullInd : Addr) (trail : TrailArgs) (s : State)
    (hnull : s.shorts inintNullInd ≠ -1) :
    ∃ n : Nat,
      (sleeper sleep inint inintNullInd outDummy dummyNullInd trail s).calls
        = s.calls ++ [SysCall.sleep n] ∧
      (n : Int) = s.ints inint % 2 ^ 32 ∧
      (0 ≤ s.ints inint → s.ints inint < 2 ^ 31 → (n : Int) = s.ints inint) :=
  ⟨toUnsigned (s.ints inint), sleeper_calls sleep inint inintNullInd outDummy dummyNullInd trail s,
    toUnsigned_eq_emod _, toUnsigned_of_nonneg _⟩

/-- The amended C2 at `N = 3` with a non-null indicator. -/
theorem sleeper_one_sleep_call_witness :
    (mkState 3 0 7 9).shorts 0 ≠ -1 ∧
    ∃ n : Nat,
      (sleeper fullSleep 0 0 1 1 trail0 (mkState 3 0 7 9)).calls
        = (mkState 3 0 7 9).calls ++ [SysCall.sleep n] ∧
      (n : Int) = (mkState 3 0 7 9).ints 0 % 2 ^ 32 ∧
      (0 ≤ (mkState 3 0 7 9).ints 0 → (mkState 3 0 7 9).ints 0 < 2 ^ 31 →
        (n : Int) = (mkState 3 0 7 9).ints 0) :=
  ⟨by decide, sleeper_one_sleep_call fullSleep 0 0 1 1 trail0 (mkState 3 0 7 9) (by decide)⟩

/-- C3: when the input null indicator is 0, on return `*outDummy = 0` and
`*dummyNullInd = 0`, whatever `*inint` is and whatever the two output locations
held before the call. -/
theorem sleeper_returns_dummy (sleep : Nat → Nat)
    (inint inintNullInd outDummy dummyNullInd : Addr) (trail : TrailArgs) (s : State)
    (hnull : s.shorts inintNullInd = 0) :
    (sleeper sleep inint inintNullInd outDummy dummyNullInd trail s).ints outDummy = 0 ∧
    (sleeper sleep inint inintNullInd outDummy dummyNullInd trail s).shorts dummyNullInd = 0 := by
  constructor
  · rw [sleeper_ints]; simp
  · rw [sleeper_shorts]; simp

/-- C3 at `N = 3`, outputs holding 7 and 9 before the call. -/
theorem sleeper_returns_dummy_witness :
    (mkState 3 0 7 9).shorts 0 = 0 ∧
    (mkState 3 0 7 9).ints 1 = 7 ∧ (mkState 3 0 7 9).shorts 1 = 9 ∧
    (sleeper interruptedSleep 0 0 1 1 trail0 (mkState 3 0 7 9)).ints 1 = 0 ∧
    (sleeper interruptedSleep 0 0 1 1 trail0 (mkState 3 0 7 9)).shorts 1 = 0 :=
  ⟨by decide, by decide, by decide,
    sleeper_returns_dummy interruptedSleep 0 0 1 1 trail0 (mkState 3 0 7 9) (by decide)⟩

/-- C5: the input null indicator does not influence the procedure. Two calls
on storage that differs only in the value of `*inintNullInd` (`x` in one, `y` in
the other) make the same system calls with the same argument and end with the
same `*outDummy` and the same `*dummyNullInd`; and with `*inintNullInd = -1`
the procedure still reads `*inint` and still calls `sleep` on it. -/
theorem sleeper_null_indicator_ignored (sleep : Nat → Nat)
    (inint inintNullInd outDummy dummyNullInd : Addr) (trail : TrailArgs) (s : State)
    (x y : Int) :
    (sleeper sleep inint inintNullInd outDummy dummyNullInd trail
        (s.storeShort inintNullInd x)).calls
      = (sleeper sleep inint inintNullInd outDummy dummyNullInd trail
        (s.storeShort inintNullInd y)).calls ∧
    (sleeper sleep inint inintNullInd outDummy dummyNullInd trail
        (s.storeShort inintNullInd x)).ints outDummy
      = (sleeper sleep inint inintNullInd outDummy dummyNullInd trail
        (s.storeShort inintNullInd y)).ints outDummy ∧
    (sleeper sleep inint inintNullInd outDummy dummyNullInd trail
        (s.storeShort inintNullInd x)).shorts dummyNullInd
      = (sleeper sleep inint inintNullInd outDummy dummyNullInd trail
        (s.storeShort inintNullInd y)).shorts dummyNullInd ∧
    (sleeper sleep inint inintNullInd outDummy dummyNullInd trail
        (s.storeShort inintNullInd (-1))).calls
      = s.calls ++ [SysCall.sleep (toUnsigned (s.ints inint))] := by
  refine ⟨?_, ?_, ?_, ?_⟩
  · rw [sleeper_calls, sleeper_calls]; rfl
  · rw [sleeper_ints, sleeper_ints]; simp
  · rw [sleeper_shorts, sleeper_shorts]; simp
  · rw [sleeper_calls]; rfl

/-- C6: the sleep duration is the 32-bit signed input converted to `unsigned
int`. For `N = *inint` in the range of a 32-bit signed integer the one call made
is `sleep (n)` where `n = N` when `0 ≤ N` and `n = N + 2 ^ 32` when `N < 0`; for
`N = -1` it is `sleep (4294967295)`. -/
theorem sleeper_sleep_duration (sleep : Nat → Nat)
    (inint inintNullInd outDummy dummyNullInd : Addr) (trail : TrailArgs) (s : State)
    (hlo : -2 ^ 31 ≤ s.ints inint) (hhi : s.ints inint < 2 ^ 31) :
    ∃ n : Nat,
      (sleeper sleep inint inintNullInd outDummy dummyNullInd trail s).calls
        = s.calls ++ [SysCall.sleep n] ∧
      (0 ≤ s.ints inint → (n : Int) = s.ints inint) ∧
      (s.ints inint < 0 → (n : Int) = s.ints inint + 2 ^ 32) ∧
      (s.ints inint = -1 → n = 4294967295) := by
  refine ⟨toUnsigned (s.ints inint),
    sleeper_calls sleep inint inintNullInd outDummy dummyNullInd trail s, ?_, ?_, ?_⟩
  · intro h0; exact toUnsigned_of_nonneg _ h0 hhi
  · intro h0; exact toUnsigned_of_neg _ hlo h0
  · intro h1; rw [h1]; decide

/-- C6 at `N = -1`. -/
theorem sleeper_sleep_duration_witness :
    (-2 ^ 31 ≤ (mkState (-1) 0 7 9).ints 0 ∧ (mkState (-1) 0 7 9).ints 0 < 2 ^ 31) ∧
    ∃ n : Nat,
      (sleeper fullSleep 0 0 1 1 trail0 (mkState (-1) 0 7 9)).calls
        = (mkState (-1) 0 7 9).calls ++ [SysCall.sleep n] ∧
      (0 ≤ (mkState (-1) 0 7 9).ints 0 → (n : Int) = (mkState (-1) 0 7 9).ints 0) ∧
      ((mkState (-1) 0 7 9).ints 0 < 0 → (n : Int) = (mkState (-1) 0 7 9).ints 0 + 2 ^ 32) ∧
      ((mkState (-1) 0 7 9).ints 0 = -1 → n = 4294967295) :=
  ⟨⟨by decide, by decide⟩,
    sleeper_sleep_duration fullSleep 0 0 1 1 trail0 (mkState (-1) 0 7 9) (by decide) (by decide)⟩

/-- C7: the value returned by `sleep` is discarded. Whatever the system function
answers, the local `j` receives the answer, and the storage the caller sees on
return, in particular `*outDummy` and `*dummyNullInd`, and the calls made are the
same as when `sleep` answers 0. -/
theorem sleeper_sleep_result_discarded (sleep : Nat → Nat)
    (inint inintNullInd outDummy dummyNullInd : Addr) (trail : TrailArgs) (s : State) :
    (sleeperBody sleep inint inintNullInd outDummy dummyNullInd trail s).2.j
      = toSigned (sleep (toUnsigned (s.ints inint)) % 2 ^ 32) ∧
    (sleeper sleep inint inintNullInd outDummy dummyNullInd trail s).ints outDummy
      = (sleeper fullSleep inint inintNullInd outDummy dummyNullInd trail s).ints outDummy ∧
    (sleeper sleep inint inintNullInd outDummy dummyNullInd trail s).shorts dummyNullInd
      = (sleeper fullSleep inint inintNullInd outDummy dummyNullInd trail s).shorts dummyNullInd ∧
    (sleeper sleep inint inintNullInd outDummy dummyNullInd trail s).ints
      = (sleeper fullSleep inint inintNullInd outDummy dummyNullInd trail s).ints ∧
    (sleeper sleep inint inintNullInd outDummy dummyNullInd trail s).shorts
      = (sleeper fullSleep inint inintNullInd outDummy dummyNullInd trail s).shorts ∧
    (sleeper sleep inint inintNullInd outDummy dummyNullInd trail s).calls
      = (sleeper fullSleep inint inintNullInd outDummy dummyNullInd trail s).calls := by
  refine ⟨(sleeperBody_locals sleep inint inintNullInd outDummy dummyNullInd trail s).2,
    ?_, ?_, ?_, ?_, ?_⟩
  · rw [sleeper_ints, sleeper_ints]
  · rw [sleeper_shorts, sleeper_shorts]
  · funext a; rw [sleeper_ints, sleeper_ints]
  · funext a; rw [sleeper_shorts, sleeper_shorts]
  · rw [sleeper_calls, sleeper_calls]

end Sleeper
